import Mathlib

/-!
Verification of the Rush runtime value engine, embedded from
src/runtime/runtime.c.

Modelling choices:

* The C struct RushObject { int type; long long value; } becomes a Lean
  structure with two unbounded integer fields.  The kind field is kept as
  an arbitrary integer because the printer must handle garbage
  discriminants; the payload field is kept in the signed 64-bit range by
  reducing it modulo 2^64 at every point where C narrows to long long
  (constructor arguments and arithmetic results).  Signed overflow of
  native addition, subtraction and multiplication is modelled as
  wrap-around, which is the behaviour the design documentation assigns to
  the runtime.

* IEEE-754 binary64 values are modelled bit-exactly by the structure
  Float64 (sign, 11-bit biased exponent, 52-bit fraction), which is in
  bijection with the 2^64 bit patterns via Float64.toBits and
  Float64.ofBits.  Storing a double into the payload word, and
  reinterpreting payload bits back as a double, are therefore exact
  bijections, matching the bit-reinterpretation the C code performs with
  pointer casts.

* The four native double arithmetic operations (+, -, *, / at type
  double) are kept abstract: every runtime operation is parameterised by
  a FloatArith record carrying those four functions.  Facts about the
  numeric behaviour of native double arithmetic that individual
  properties need (for example that 2.0 + 1.5 is exactly 3.5) appear as
  hypotheses on that record; they hold of IEEE-754 arithmetic.

* The conversion (double)v of a signed 64-bit integer to double is
  implemented concretely with round-to-nearest, ties-to-even
  (intToDouble below), so that its value on concrete inputs is
  computable.

* Printers are modelled as pure functions returning the String they
  write.  Formatting a double with printf "%g" and reading the bytes
  behind a C string pointer depend on the C library and process memory,
  so they are abstract parameters (PrintEnv); the integer, boolean and
  null branches are concrete.
-/

/-- Kind tag RUSH_NULL = 0 of the C enum RushObjectType. -/
def RUSH_NULL : Int := 0

/-- Kind tag RUSH_INTEGER = 1 of the C enum RushObjectType. -/
def RUSH_INTEGER : Int := 1

/-- Kind tag RUSH_FLOAT = 2 of the C enum RushObjectType. -/
def RUSH_FLOAT : Int := 2

/-- Kind tag RUSH_BOOLEAN = 3 of the C enum RushObjectType. -/
def RUSH_BOOLEAN : Int := 3

/-- Kind tag RUSH_STRING = 4 of the C enum RushObjectType. -/
def RUSH_STRING : Int := 4

/-- The C struct RushObject: a kind discriminant (C int, may hold any
value, including values outside the enum) and one signed 64-bit payload
word (C long long). -/
structure RushObject where
  type : Int
  value : Int
deriving DecidableEq

/-- Reduction of an unbounded integer into the signed 64-bit word: the
value congruent modulo 2^64 lying in [-2^63, 2^63).  This models the
narrowing of an integer to the C type long long. -/
def wrap64 (x : Int) : Int := (x + 2^63) % 2^64 - 2^63

/-- Unsigned 64-bit pattern of a signed payload word. -/
def bits64 (x : Int) : Nat := (x % 2^64).toNat

/-- IEEE-754 binary64 value, given by its bit fields: sign, 11-bit
biased exponent, 52-bit fraction.  This representation is in bijection
with the 2^64 bit patterns, so it covers every double, including
signed zeros, subnormals, infinities and NaNs. -/
@[ext]
structure Float64 where
  sign : Bool
  expo : Fin 2048
  frac : Fin 4503599627370496
deriving DecidableEq

/-- Bit pattern of a binary64 value: sign bit 63, exponent bits 62-52,
fraction bits 51-0. -/
def Float64.toBits (d : Float64) : Nat :=
  (cond d.sign 1 0) * 2^63 + d.expo.val * 2^52 + d.frac.val

/-- Binary64 value of a 64-bit pattern (the pattern is taken modulo
2^64 by the field extractions). -/
def Float64.ofBits (n : Nat) : Float64 :=
  ⟨n / 2^63 % 2 == 1,
   ⟨n / 2^52 % 2048, Nat.mod_lt _ (by norm_num)⟩,
   ⟨n % 2^52, Nat.mod_lt _ (by norm_num)⟩⟩

/-- Positive zero, the double 0.0. -/
def Float64.zero : Float64 := ⟨false, 0, 0⟩

/-- IEEE-754 equality comparison of a double with 0.0: true exactly on
the two signed zeros (every NaN, every nonzero finite value and both
infinities compare unequal to 0.0).  This embeds the C expression
right_val == 0.0. -/
def Float64.isZero (d : Float64) : Bool :=
  d.expo.val == 0 && d.frac.val == 0

/-- Finiteness of a binary64 value: the exponent field is not all
ones (all ones encodes infinities and NaNs). -/
def Float64.isFinite (d : Float64) : Bool :=
  d.expo.val != 2047

/-- Number of significant bits of n, computed with structural fuel so
that it reduces inside the kernel; exact for n < 2^70. -/
def bitLenAux : Nat → Nat → Nat
  | 0, _ => 0
  | fuel+1, n => if n = 0 then 0 else bitLenAux fuel (n / 2) + 1

/-- Number of significant bits of a payload-sized natural number. -/
def bitLen (n : Nat) : Nat := bitLenAux 70 n

/-- Exponent field builder (reduction modulo 2048 only keeps the
definition total; every use in range is unchanged). -/
def mkExpo (n : Nat) : Fin 2048 := ⟨n % 2048, Nat.mod_lt _ (by norm_num)⟩

/-- Fraction field builder (reduction modulo 2^52 only keeps the
definition total; every use in range is unchanged). -/
def mkFrac (n : Nat) : Fin 4503599627370496 :=
  ⟨n % 4503599627370496, Nat.mod_lt _ (by norm_num)⟩

/-- Conversion of a signed integer to binary64, rounding to nearest
with ties to even: the C cast (double)v for a long long v.  Signed
64-bit inputs never reach the infinite exponent, so the result is
always finite. -/
def intToDouble (a : Int) : Float64 :=
  if a = 0 then Float64.zero
  else
    let sgn := decide (a < 0)
    let n := a.natAbs
    let k := bitLen n - 1
    if k ≤ 52 then
      ⟨sgn, mkExpo (k + 1023), mkFrac ((n - 2^k) * 2^(52 - k))⟩
    else
      let s := k - 52
      let q := n / 2^s
      let r := n % 2^s
      let q2 := if 2*r > 2^s ∨ (2*r = 2^s ∧ q % 2 = 1) then q + 1 else q
      if q2 = 2^53 then ⟨sgn, mkExpo (k + 1024), mkFrac 0⟩
      else ⟨sgn, mkExpo (k + 1023), mkFrac (q2 - 2^52)⟩

/-- The four native double arithmetic operations, kept abstract.  The C
code applies the hardware operations +, -, *, / at type double; any
record of four functions can be plugged in, and facts the claims need
about IEEE-754 arithmetic become hypotheses on the record. -/
structure FloatArith where
  fadd : Float64 → Float64 → Float64
  fsub : Float64 → Float64 → Float64
  fmul : Float64 → Float64 → Float64
  fdiv : Float64 → Float64 → Float64

/-- A concrete instance of FloatArith used to evaluate closed
statements (first projection everywhere). -/
def floatArithFst : FloatArith :=
  ⟨fun a _ => a, fun a _ => a, fun a _ => a, fun a _ => a⟩

/-- The double 1.5, bit pattern 0x3FF8000000000000. -/
def float1p5 : Float64 := Float64.ofBits 4609434218613702656

/-- The double 3.5, bit pattern 0x400C000000000000. -/
def float3p5 : Float64 := Float64.ofBits 4615063718147915776

/-- The double 1.0, bit pattern 0x3FF0000000000000. -/
def float1p0 : Float64 := Float64.ofBits 4607182418800017408

/-- A concrete instance of FloatArith whose addition returns the
double 3.5 everywhere; it satisfies the IEEE-754 fact 2.0 + 1.5 = 3.5
assumed by the mixed-operand addition property. -/
def floatArithTo3p5 : FloatArith :=
  ⟨fun _ _ => float3p5, fun a _ => a, fun a _ => a, fun a _ => a⟩

/-- rush_make_integer: RushObject obj = {RUSH_INTEGER, value}.  The
argument narrows to long long at the call boundary. -/
def rush_make_integer (value : Int) : RushObject :=
  ⟨RUSH_INTEGER, wrap64 value⟩

/-- rush_make_float: stores the bit pattern of the double into the
payload word (obj.value = *(long long*)&value), reinterpreted as a
signed 64-bit integer — a bit copy, not a numeric conversion. -/
def rush_make_float (value : Float64) : RushObject :=
  ⟨RUSH_FLOAT, wrap64 (value.toBits : Int)⟩

/-- rush_make_boolean: RushObject obj = {RUSH_BOOLEAN, value ? 1 : 0}. -/
def rush_make_boolean (value : Int) : RushObject :=
  ⟨RUSH_BOOLEAN, if value = 0 then 0 else 1⟩

/-- rush_make_string: stores the string address in the payload word.
The address is modelled by its signed 64-bit value. -/
def rush_make_string (value : Int) : RushObject :=
  ⟨RUSH_STRING, wrap64 value⟩

/-- rush_make_null: RushObject obj = {RUSH_NULL, 0}. -/
def rush_make_null : RushObject :=
  ⟨RUSH_NULL, 0⟩

/-- The operand coercion shared by the arithmetic float branches:
(o.type == RUSH_FLOAT) ? *(double*)&o.value : (double)o.value — a
Float operand has its payload bits reinterpreted as a double, any
other operand has its payload word converted numerically. -/
def rushToDouble (o : RushObject) : Float64 :=
  if o.type = RUSH_FLOAT then Float64.ofBits (bits64 o.value)
  else intToDouble o.value

/-- rush_add: both Integer → native integer addition; else either
Float → double addition of the coerced operands; else null. -/
def rush_add (F : FloatArith) (left right : RushObject) : RushObject :=
  if left.type = RUSH_INTEGER ∧ right.type = RUSH_INTEGER then
    rush_make_integer (left.value + right.value)
  else if left.type = RUSH_FLOAT ∨ right.type = RUSH_FLOAT then
    rush_make_float (F.fadd (rushToDouble left) (rushToDouble right))
  else rush_make_null

/-- rush_subtract: same dispatch as rush_add with native subtraction. -/
def rush_subtract (F : FloatArith) (left right : RushObject) : RushObject :=
  if left.type = RUSH_INTEGER ∧ right.type = RUSH_INTEGER then
    rush_make_integer (left.value - right.value)
  else if left.type = RUSH_FLOAT ∨ right.type = RUSH_FLOAT then
    rush_make_float (F.fsub (rushToDouble left) (rushToDouble right))
  else rush_make_null

/-- rush_multiply: same dispatch as rush_add with native
multiplication. -/
def rush_multiply (F : FloatArith) (left right : RushObject) : RushObject :=
  if left.type = RUSH_INTEGER ∧ right.type = RUSH_INTEGER then
    rush_make_integer (left.value * right.value)
  else if left.type = RUSH_FLOAT ∨ right.type = RUSH_FLOAT then
    rush_make_float (F.fmul (rushToDouble left) (rushToDouble right))
  else rush_make_null

/-- rush_divide: both Integer → null on zero divisor, else native
truncating division (Int.tdiv is division toward zero, the semantics
of the C operator / on long long); else either Float → null when the
coerced right operand compares equal to 0.0, else double division. -/
def rush_divide (F : FloatArith) (left right : RushObject) : RushObject :=
  if left.type = RUSH_INTEGER ∧ right.type = RUSH_INTEGER then
    if right.value = 0 then rush_make_null
    else rush_make_integer (Int.tdiv left.value right.value)
  else if left.type = RUSH_FLOAT ∨ right.type = RUSH_FLOAT then
    if (rushToDouble right).isZero then rush_make_null
    else rush_make_float (F.fdiv (rushToDouble left) (rushToDouble right))
  else rush_make_null

/-- Abstract parts of the printing environment: formatting a double
with printf "%g", and the byte content behind a string address in
process memory. -/
structure PrintEnv where
  formatDouble : Float64 → String
  stringAt : Int → String

/-- A concrete instance of PrintEnv used to evaluate closed
statements. -/
def printEnvDefault : PrintEnv := ⟨fun _ => "", fun _ => ""⟩

/-- rush_print_object, as the string it writes: switch on obj.type
with cases RUSH_INTEGER (printf "%lld"), RUSH_FLOAT (bits
reinterpreted to double, printf "%g"), RUSH_BOOLEAN ("true"/"false"),
RUSH_STRING (bytes at the payload address), and RUSH_NULL together
with the default case printing "null". -/
def rush_print_object (P : PrintEnv) (obj : RushObject) : String :=
  if obj.type = RUSH_INTEGER then toString obj.value
  else if obj.type = RUSH_FLOAT then P.formatDouble (Float64.ofBits (bits64 obj.value))
  else if obj.type = RUSH_BOOLEAN then (if obj.value = 0 then "false" else "true")
  else if obj.type = RUSH_STRING then P.stringAt obj.value
  else "null"

/-- rush_println: rush_print_object followed by printf of a newline. -/
def rush_println (P : PrintEnv) (obj : RushObject) : String :=
  rush_print_object P obj ++ "\n"

/-! Helper lemmas about the embedding. -/

theorem wrap64_eq_self {x : Int} (h1 : -(2^63) ≤ x) (h2 : x < 2^63) : wrap64 x = x := by
  unfold wrap64; omega

theorem wrap64_emod (x : Int) : wrap64 x % 2^64 = x % 2^64 := by
  unfold wrap64; omega

theorem wrap64_congr {x y : Int} (h : x % 2^64 = y % 2^64) : wrap64 x = wrap64 y := by
  unfold wrap64; omega

theorem wrap64_add (a b : Int) : wrap64 (wrap64 a + wrap64 b) = wrap64 (a + b) :=
  wrap64_congr (Int.ModEq.add (wrap64_emod a) (wrap64_emod b))

theorem wrap64_sub (a b : Int) : wrap64 (wrap64 a - wrap64 b) = wrap64 (a - b) :=
  wrap64_congr (Int.ModEq.sub (wrap64_emod a) (wrap64_emod b))

theorem wrap64_mul (a b : Int) : wrap64 (wrap64 a * wrap64 b) = wrap64 (a * b) :=
  wrap64_congr (Int.ModEq.mul (wrap64_emod a) (wrap64_emod b))

theorem bits64_wrap64 {n : Nat} (h : n < 2^64) : bits64 (wrap64 (n : Int)) = n := by
  unfold bits64 wrap64; omega

theorem Float64.toBits_lt (d : Float64) : d.toBits < 2^64 := by
  obtain ⟨s, ⟨e, he⟩, ⟨f, hf⟩⟩ := d
  simp only [Float64.toBits]
  cases s <;> simp <;> omega

theorem Float64.ofBits_toBits (d : Float64) : Float64.ofBits d.toBits = d := by
  obtain ⟨s, ⟨e, he⟩, ⟨f, hf⟩⟩ := d
  simp only [Float64.toBits, Float64.ofBits]
  ext
  · simp only
    cases s
    · simp only [cond, beq_eq_false_iff_ne, ne_eq]
      omega
    · simp only [cond, beq_iff_eq]
      omega
  · simp only
    cases s <;> simp only [cond] <;> omega
  · simp only
    cases s <;> simp only [cond] <;> omega

theorem natAbs_tdiv_eq (a b : Int) : (Int.tdiv a b).natAbs = a.natAbs / b.natAbs := by
  cases a <;> cases b <;> simp [Int.tdiv] <;> rfl

theorem tdiv_range {a b : Int} (ha1 : -(2^63) ≤ a) (ha2 : a < 2^63)
    (hb2 : b < 2^63) (hb0 : b ≠ 0) (hex : ¬(a = -(2^63) ∧ b = -1)) :
    -(2^63) ≤ Int.tdiv a b ∧ Int.tdiv a b < 2^63 := by
  rcases Nat.lt_or_ge b.natAbs 2 with hb | hb
  · have h1 : b.natAbs = 1 := by omega
    rcases Int.natAbs_eq_iff.mp h1 with h | h
    · rw [show ((1 : Nat) : Int) = 1 from rfl] at h
      rw [h, Int.tdiv_one]; omega
    · rw [show (-(1 : Nat) : Int) = -1 from rfl] at h
      rw [h, show ((-1 : Int)) = -(1) from rfl, Int.tdiv_neg, Int.tdiv_one]
      omega
  · have h2 : (Int.tdiv a b).natAbs = a.natAbs / b.natAbs := natAbs_tdiv_eq a b
    have h3 : a.natAbs / b.natAbs ≤ a.natAbs / 2 := Nat.div_le_div_left hb (by norm_num)
    omega

theorem rushToDouble_make_float (x : Float64) :
    rushToDouble (rush_make_float x) = x := by
  have h : rushToDouble (rush_make_float x)
      = Float64.ofBits (bits64 (wrap64 (x.toBits : Int))) := rfl
  rw [h, bits64_wrap64 x.toBits_lt, Float64.ofBits_toBits]

theorem rushToDouble_make_integer {a : Int} (h1 : -(2^63) ≤ a) (h2 : a < 2^63) :
    rushToDouble (rush_make_integer a) = intToDouble a := by
  have h : rushToDouble (rush_make_integer a) = intToDouble (wrap64 a) := rfl
  rw [h, wrap64_eq_self h1 h2]

theorem rush_make_integer_ne_null (v : Int) : rush_make_integer v ≠ rush_make_null := by
  intro h
  have h2 : (RUSH_INTEGER : Int) = RUSH_NULL := congrArg RushObject.type h
  exact absurd h2 (by decide)

theorem rush_make_float_ne_null (d : Float64) : rush_make_float d ≠ rush_make_null := by
  intro h
  have h2 : (RUSH_FLOAT : Int) = RUSH_NULL := congrArg RushObject.type h
  exact absurd h2 (by decide)

theorem int_int_not_float {l r : RushObject}
    (h : l.type = RUSH_INTEGER ∧ r.type = RUSH_INTEGER) :
    ¬(l.type = RUSH_FLOAT ∨ r.type = RUSH_FLOAT) := by
  rintro (h3 | h3)
  · rw [h.1] at h3; exact absurd h3 (by decide)
  · rw [h.2] at h3; exact absurd h3 (by decide)

/-! Branch lemmas: each arithmetic operation, evaluated on each side of
its dispatch conditions. -/

theorem rush_add_int_int (F : FloatArith) {l r : RushObject}
    (h : l.type = RUSH_INTEGER ∧ r.type = RUSH_INTEGER) :
    rush_add F l r = rush_make_integer (l.value + r.value) := by
  unfold rush_add; rw [if_pos h]

theorem rush_add_float (F : FloatArith) {l r : RushObject}
    (h1 : ¬(l.type = RUSH_INTEGER ∧ r.type = RUSH_INTEGER))
    (h2 : l.type = RUSH_FLOAT ∨ r.type = RUSH_FLOAT) :
    rush_add F l r = rush_make_float (F.fadd (rushToDouble l) (rushToDouble r)) := by
  unfold rush_add; rw [if_neg h1, if_pos h2]

theorem rush_add_other (F : FloatArith) {l r : RushObject}
    (h1 : ¬(l.type = RUSH_INTEGER ∧ r.type = RUSH_INTEGER))
    (h2 : ¬(l.type = RUSH_FLOAT ∨ r.type = RUSH_FLOAT)) :
    rush_add F l r = rush_make_null := by
  unfold rush_add; rw [if_neg h1, if_neg h2]

theorem rush_subtract_int_int (F : FloatArith) {l r : RushObject}
    (h : l.type = RUSH_INTEGER ∧ r.type = RUSH_INTEGER) :
    rush_subtract F l r = rush_make_integer (l.value - r.value) := by
  unfold rush_subtract; rw [if_pos h]

theorem rush_subtract_float (F : FloatArith) {l r : RushObject}
    (h1 : ¬(l.type = RUSH_INTEGER ∧ r.type = RUSH_INTEGER))
    (h2 : l.type = RUSH_FLOAT ∨ r.type = RUSH_FLOAT) :
    rush_subtract F l r = rush_make_float (F.fsub (rushToDouble l) (rushToDouble r)) := by
  unfold rush_subtract; rw [if_neg h1, if_pos h2]

theorem rush_subtract_other (F : FloatArith) {l r : RushObject}
    (h1 : ¬(l.type = RUSH_INTEGER ∧ r.type = RUSH_INTEGER))
    (h2 : ¬(l.type = RUSH_FLOAT ∨ r.type = RUSH_FLOAT)) :
    rush_subtract F l r = rush_make_null := by
  unfold rush_subtract; rw [if_neg h1, if_neg h2]

theorem rush_multiply_int_int (F : FloatArith) {l r : RushObject}
    (h : l.type = RUSH_INTEGER ∧ r.type = RUSH_INTEGER) :
    rush_multiply F l r = rush_make_integer (l.value * r.value) := by
  unfold rush_multiply; rw [if_pos h]

theorem rush_multiply_float (F : FloatArith) {l r : RushObject}
    (h1 : ¬(l.type = RUSH_INTEGER ∧ r.type = RUSH_INTEGER))
    (h2 : l.type = RUSH_FLOAT ∨ r.type = RUSH_FLOAT) :
    rush_multiply F l r = rush_make_float (F.fmul (rushToDouble l) (rushToDouble r)) := by
  unfold rush_multiply; rw [if_neg h1, if_pos h2]

theorem rush_multiply_other (F : FloatArith) {l r : RushObject}
    (h1 : ¬(l.type = RUSH_INTEGER ∧ r.type = RUSH_INTEGER))
    (h2 : ¬(l.type = RUSH_FLOAT ∨ r.type = RUSH_FLOAT)) :
    rush_multiply F l r = rush_make_null := by
  unfold rush_multiply; rw [if_neg h1, if_neg h2]

theorem rush_divide_int_zero (F : FloatArith) {l r : RushObject}
    (h : l.type = RUSH_INTEGER ∧ r.type = RUSH_INTEGER) (hz : r.value = 0) :
    rush_divide F l r = rush_make_null := by
  unfold rush_divide; rw [if_pos h, if_pos hz]

theorem rush_divide_int_nonzero (F : FloatArith) {l r : RushObject}
    (h : l.type = RUSH_INTEGER ∧ r.type = RUSH_INTEGER) (hz : r.value ≠ 0) :
    rush_divide F l r = rush_make_integer (Int.tdiv l.value r.value) := by
  unfold rush_divide; rw [if_pos h, if_neg hz]

theorem rush_divide_float_zero (F : FloatArith) {l r : RushObject}
    (h1 : ¬(l.type = RUSH_INTEGER ∧ r.type = RUSH_INTEGER))
    (h2 : l.type = RUSH_FLOAT ∨ r.type = RUSH_FLOAT)
    (hz : (rushToDouble r).isZero = true) :
    rush_divide F l r = rush_make_null := by
  unfold rush_divide
  rw [if_neg h1, if_pos h2, if_pos hz]

theorem rush_divide_float_nonzero (F : FloatArith) {l r : RushObject}
    (h1 : ¬(l.type = RUSH_INTEGER ∧ r.type = RUSH_INTEGER))
    (h2 : l.type = RUSH_FLOAT ∨ r.type = RUSH_FLOAT)
    (hz : (rushToDouble r).isZero = false) :
    rush_divide F l r = rush_make_float (F.fdiv (rushToDouble l) (rushToDouble r)) := by
  unfold rush_divide
  rw [if_neg h1, if_pos h2, if_neg (by rw [hz]; exact Bool.false_ne_true)]

theorem rush_divide_other (F : FloatArith) {l r : RushObject}
    (h1 : ¬(l.type = RUSH_INTEGER ∧ r.type = RUSH_INTEGER))
    (h2 : ¬(l.type = RUSH_FLOAT ∨ r.type = RUSH_FLOAT)) :
    rush_divide F l r = rush_make_null := by
  unfold rush_divide; rw [if_neg h1, if_neg h2]

/-! Claim theorems. -/

/-- C1: for every pair of Values, each of add, subtract and multiply
returns the Null sentinel if and only if neither dispatch rule applies
(not both operands Integer, and neither operand Float); when both are
Integer the result kind is Integer, and when either is Float the
result kind is Float. -/
theorem claim_C1 (F : FloatArith) (l r : RushObject) :
    (rush_add F l r = rush_make_null ↔
      ¬(l.type = RUSH_INTEGER ∧ r.type = RUSH_INTEGER) ∧
      ¬(l.type = RUSH_FLOAT ∨ r.type = RUSH_FLOAT)) ∧
    (rush_subtract F l r = rush_make_null ↔
      ¬(l.type = RUSH_INTEGER ∧ r.type = RUSH_INTEGER) ∧
      ¬(l.type = RUSH_FLOAT ∨ r.type = RUSH_FLOAT)) ∧
    (rush_multiply F l r = rush_make_null ↔
      ¬(l.type = RUSH_INTEGER ∧ r.type = RUSH_INTEGER) ∧
      ¬(l.type = RUSH_FLOAT ∨ r.type = RUSH_FLOAT)) ∧
    ((l.type = RUSH_INTEGER ∧ r.type = RUSH_INTEGER) →
      (rush_add F l r).type = RUSH_INTEGER ∧
      (rush_subtract F l r).type = RUSH_INTEGER ∧
      (rush_multiply F l r).type = RUSH_INTEGER) ∧
    ((l.type = RUSH_FLOAT ∨ r.type = RUSH_FLOAT) →
      (rush_add F l r).type = RUSH_FLOAT ∧
      (rush_subtract F l r).type = RUSH_FLOAT ∧
      (rush_multiply F l r).type = RUSH_FLOAT) := by
  by_cases hi : l.type = RUSH_INTEGER ∧ r.type = RUSH_INTEGER
  · have hnf := int_int_not_float hi
    refine ⟨?_, ?_, ?_, fun _ => ⟨?_, ?_, ?_⟩, fun hf => absurd hf hnf⟩
    · rw [rush_add_int_int F hi]
      exact ⟨fun h => absurd h (rush_make_integer_ne_null _), fun h => absurd hi h.1⟩
    · rw [rush_subtract_int_int F hi]
      exact ⟨fun h => absurd h (rush_make_integer_ne_null _), fun h => absurd hi h.1⟩
    · rw [rush_multiply_int_int F hi]
      exact ⟨fun h => absurd h (rush_make_integer_ne_null _), fun h => absurd hi h.1⟩
    · rw [rush_add_int_int F hi]; rfl
    · rw [rush_subtract_int_int F hi]; rfl
    · rw [rush_multiply_int_int F hi]; rfl
  · by_cases hf : l.type = RUSH_FLOAT ∨ r.type = RUSH_FLOAT
    · refine ⟨?_, ?_, ?_, fun h => absurd h hi, fun _ => ⟨?_, ?_, ?_⟩⟩
      · rw [rush_add_float F hi hf]
        exact ⟨fun h => absurd h (rush_make_float_ne_null _), fun h => absurd hf h.2⟩
      · rw [rush_subtract_float F hi hf]
        exact ⟨fun h => absurd h (rush_make_float_ne_null _), fun h => absurd hf h.2⟩
      · rw [rush_multiply_float F hi hf]
        exact ⟨fun h => absurd h (rush_make_float_ne_null _), fun h => absurd hf h.2⟩
      · rw [rush_add_float F hi hf]; rfl
      · rw [rush_subtract_float F hi hf]; rfl
      · rw [rush_multiply_float F hi hf]; rfl
    · refine ⟨?_, ?_, ?_, fun h => absurd h hi, fun h => absurd h hf⟩
      · rw [rush_add_other F hi hf]
        exact ⟨fun _ => ⟨hi, hf⟩, fun _ => rfl⟩
      · rw [rush_subtract_other F hi hf]
        exact ⟨fun _ => ⟨hi, hf⟩, fun _ => rfl⟩
      · rw [rush_multiply_other F hi hf]
        exact ⟨fun _ => ⟨hi, hf⟩, fun _ => rfl⟩

/-- Witness for C1 at two Integer operands. -/
theorem claim_C1_witness :
    (rush_add floatArithFst (rush_make_integer 1) (rush_make_integer 2)).type
      = RUSH_INTEGER :=
  ((claim_C1 floatArithFst (rush_make_integer 1) (rush_make_integer 2)).2.2.2.1
    ⟨rfl, rfl⟩).1

/-- C2: divide returns Null on a zero divisor — for every integer a on
integer zero, in the floating branch whenever the coerced right
operand compares equal to 0.0, and in particular for every finite
double over the float 0.0. -/
theorem claim_C2 (F : FloatArith) (a : Int) (l r : RushObject) (x : Float64) :
    rush_divide F (rush_make_integer a) (rush_make_integer 0) = rush_make_null ∧
    (¬(l.type = RUSH_INTEGER ∧ r.type = RUSH_INTEGER) →
      (l.type = RUSH_FLOAT ∨ r.type = RUSH_FLOAT) →
      (rushToDouble r).isZero = true →
      rush_divide F l r = rush_make_null) ∧
    (x.isFinite = true →
      rush_divide F (rush_make_float x) (rush_make_float Float64.zero)
        = rush_make_null) := by
  refine ⟨?_, fun h1 h2 hz => rush_divide_float_zero F h1 h2 hz, fun _ => ?_⟩
  · exact rush_divide_int_zero F ⟨rfl, rfl⟩ (by decide)
  · apply rush_divide_float_zero F
    · rintro ⟨h, -⟩
      exact absurd (show (RUSH_FLOAT : Int) = RUSH_INTEGER from h) (by decide)
    · exact Or.inl rfl
    · rw [rushToDouble_make_float]
      rfl

/-- Witness for C2 on concrete inputs: 5 / 0 in integers, 1.5 / null in
the float branch, and 1.5 / 0.0 in pure floats. -/
theorem claim_C2_witness :
    rush_divide floatArithFst (rush_make_integer 5) (rush_make_integer 0)
      = rush_make_null ∧
    rush_divide floatArithFst (rush_make_float float1p5) rush_make_null
      = rush_make_null ∧
    rush_divide floatArithFst (rush_make_float float1p5) (rush_make_float Float64.zero)
      = rush_make_null :=
  ⟨(claim_C2 floatArithFst 5 (rush_make_float float1p5) rush_make_null float1p5).1,
   (claim_C2 floatArithFst 5 (rush_make_float float1p5) rush_make_null float1p5).2.1
     (by decide) (by decide) (by decide),
   (claim_C2 floatArithFst 5 (rush_make_float float1p5) rush_make_null float1p5).2.2
     (by decide)⟩

/-- C3 counterexample: at a = -2^63, b = -1 (a nonzero divisor), the
divide result payload is not the truncating quotient a/b = 2^63: that
quotient does not fit the signed 64-bit word, so the claimed equality
fails (in the C source this input overflows native division). -/
theorem claim_C3_counterexample :
    (rush_divide floatArithFst (rush_make_integer (-(2^63)))
        (rush_make_integer (-1))).value
      ≠ Int.tdiv (-(2^63)) (-1) := by decide

/-- C3 amended: for all signed 64-bit integers a, b with b nonzero and
(a, b) not the overflowing pair (-2^63, -1), divide yields an Integer
Value whose payload is the truncating (toward-zero) quotient a/b. -/
theorem claim_C3 (F : FloatArith) (a b : Int) (ha1 : -(2^63) ≤ a) (ha2 : a < 2^63)
    (hb1 : -(2^63) ≤ b) (hb2 : b < 2^63) (hb0 : b ≠ 0)
    (hex : ¬(a = -(2^63) ∧ b = -1)) :
    rush_divide F (rush_make_integer a) (rush_make_integer b)
      = ⟨RUSH_INTEGER, Int.tdiv a b⟩ := by
  have hz : (rush_make_integer b).value ≠ 0 := by
    show wrap64 b ≠ 0
    rw [wrap64_eq_self hb1 hb2]; exact hb0
  rw [rush_divide_int_nonzero F ⟨rfl, rfl⟩ hz]
  show rush_make_integer (Int.tdiv (wrap64 a) (wrap64 b)) = _
  rw [wrap64_eq_self ha1 ha2, wrap64_eq_self hb1 hb2]
  unfold rush_make_integer
  have hr := tdiv_range ha1 ha2 hb2 hb0 hex
  rw [wrap64_eq_self hr.1 hr.2]

/-- Witness for C3 at 7 / -2, a truncating-division case (quotient -3). -/
theorem claim_C3_witness :
    rush_divide floatArithFst (rush_make_integer 7) (rush_make_integer (-2))
      = ⟨RUSH_INTEGER, Int.tdiv 7 (-2)⟩ :=
  claim_C3 floatArithFst 7 (-2) (by decide) (by decide) (by decide) (by decide)
    (by decide) (by decide)

/-- C4: for all integers a, b, each of add, subtract and multiply on
make-integer operands yields an Integer Value whose payload is the
mathematical result reduced modulo 2^64 into the signed 64-bit word. -/
theorem claim_C4 (F : FloatArith) (a b : Int) :
    rush_add F (rush_make_integer a) (rush_make_integer b)
      = ⟨RUSH_INTEGER, wrap64 (a + b)⟩ ∧
    rush_subtract F (rush_make_integer a) (rush_make_integer b)
      = ⟨RUSH_INTEGER, wrap64 (a - b)⟩ ∧
    rush_multiply F (rush_make_integer a) (rush_make_integer b)
      = ⟨RUSH_INTEGER, wrap64 (a * b)⟩ := by
  refine ⟨?_, ?_, ?_⟩
  · rw [rush_add_int_int F ⟨rfl, rfl⟩]
    show rush_make_integer (wrap64 a + wrap64 b) = _
    unfold rush_make_integer
    rw [wrap64_add]
  · rw [rush_subtract_int_int F ⟨rfl, rfl⟩]
    show rush_make_integer (wrap64 a - wrap64 b) = _
    unfold rush_make_integer
    rw [wrap64_sub]
  · rw [rush_multiply_int_int F ⟨rfl, rfl⟩]
    show rush_make_integer (wrap64 a * wrap64 b) = _
    unfold rush_make_integer
    rw [wrap64_mul]

/-- C5: adding make-integer(a) and make-float(x) yields a Float Value
whose payload stores the bits of the double sum of (double)a and x
(the Integer operand widening numerically, the Float operand bits
reinterpreted back to a double); in particular, under the IEEE-754
fact 2.0 + 1.5 = 3.5, add(make-integer(2), make-float(1.5)) is the
Float 3.5. -/
theorem claim_C5 (F : FloatArith) (a : Int) (x : Float64)
    (ha1 : -(2^63) ≤ a) (ha2 : a < 2^63) :
    rush_add F (rush_make_integer a) (rush_make_float x)
      = rush_make_float (F.fadd (intToDouble a) x) ∧
    (rush_add F (rush_make_integer a) (rush_make_float x)).type = RUSH_FLOAT ∧
    (F.fadd (intToDouble 2) float1p5 = float3p5 →
      rush_add F (rush_make_integer 2) (rush_make_float float1p5)
        = rush_make_float float3p5) := by
  have key : ∀ (b : Int), -(2^63) ≤ b → b < 2^63 → ∀ y : Float64,
      rush_add F (rush_make_integer b) (rush_make_float y)
        = rush_make_float (F.fadd (intToDouble b) y) := by
    intro b hb1 hb2 y
    have h1 : ¬((rush_make_integer b).type = RUSH_INTEGER ∧
        (rush_make_float y).type = RUSH_INTEGER) := by
      rintro ⟨-, h⟩
      exact absurd (show (RUSH_FLOAT : Int) = RUSH_INTEGER from h) (by decide)
    rw [rush_add_float F h1 (Or.inr rfl), rushToDouble_make_integer hb1 hb2,
      rushToDouble_make_float]
  refine ⟨key a ha1 ha2 x, ?_, fun hIEEE => ?_⟩
  · rw [key a ha1 ha2 x]; rfl
  · rw [key 2 (by decide) (by decide) float1p5, hIEEE]

/-- Witness for C5 with a FloatArith record satisfying the assumed
IEEE-754 fact. -/
theorem claim_C5_witness :
    rush_add floatArithTo3p5 (rush_make_integer 2) (rush_make_float float1p5)
      = rush_make_float float3p5 :=
  (claim_C5 floatArithTo3p5 2 float1p5 (by decide) (by decide)).2.2 rfl

/-- C6: the payload word of make-float(d), reinterpreted back as a
double, is exactly d, bit for bit — the constructor stores the bit
pattern of the double, not a numeric conversion. -/
theorem claim_C6 (d : Float64) :
    Float64.ofBits (bits64 ((rush_make_float d).value)) = d ∧
    (rush_make_float d).value = wrap64 (d.toBits : Int) ∧
    (rush_make_float d).type = RUSH_FLOAT := by
  refine ⟨?_, rfl, rfl⟩
  show Float64.ofBits (bits64 (wrap64 (d.toBits : Int))) = d
  rw [bits64_wrap64 d.toBits_lt, Float64.ofBits_toBits]

/-- C7 counterexample: add with a Null left operand and a Float right
operand does not return the Null sentinel — the Null operand falls
into the float branch (coerced to 0.0) and the result kind is Float. -/
theorem claim_C7_counterexample :
    rush_add floatArithFst rush_make_null (rush_make_float float1p5)
      ≠ rush_make_null := by decide

/-- C7 amended: if either operand is the Null sentinel and neither
operand is Float, every arithmetic operation returns the Null
sentinel (with a Float on the other side, the Null operand is instead
coerced to 0.0 and the float branch applies). -/
theorem claim_C7 (F : FloatArith) (l r : RushObject)
    (h : l.type = RUSH_NULL ∨ r.type = RUSH_NULL)
    (hl : l.type ≠ RUSH_FLOAT) (hr : r.type ≠ RUSH_FLOAT) :
    rush_add F l r = rush_make_null ∧
    rush_subtract F l r = rush_make_null ∧
    rush_multiply F l r = rush_make_null ∧
    rush_divide F l r = rush_make_null := by
  have h1 : ¬(l.type = RUSH_INTEGER ∧ r.type = RUSH_INTEGER) := by
    rintro ⟨hli, hri⟩
    rcases h with h | h
    · rw [hli] at h; exact absurd h (by decide)
    · rw [hri] at h; exact absurd h (by decide)
  have h2 : ¬(l.type = RUSH_FLOAT ∨ r.type = RUSH_FLOAT) := by
    rintro (h3 | h3)
    exacts [hl h3, hr h3]
  exact ⟨rush_add_other F h1 h2, rush_subtract_other F h1 h2,
    rush_multiply_other F h1 h2, rush_divide_other F h1 h2⟩

/-- Witness for C7 at a Null left operand and a Boolean right
operand. -/
theorem claim_C7_witness :
    rush_add floatArithFst rush_make_null (rush_make_boolean 1) = rush_make_null ∧
    rush_subtract floatArithFst rush_make_null (rush_make_boolean 1) = rush_make_null ∧
    rush_multiply floatArithFst rush_make_null (rush_make_boolean 1) = rush_make_null ∧
    rush_divide floatArithFst rush_make_null (rush_make_boolean 1) = rush_make_null :=
  claim_C7 floatArithFst rush_make_null (rush_make_boolean 1) (Or.inl rfl)
    (by decide) (by decide)

/-- C8: make-boolean is total and yields a Value of kind Boolean whose
payload is normalized to exactly 1 on every nonzero input and exactly
0 on input 0. -/
theorem claim_C8 (v : Int) :
    (rush_make_boolean v).type = RUSH_BOOLEAN ∧
    (v ≠ 0 → (rush_make_boolean v).value = 1) ∧
    (v = 0 → (rush_make_boolean v).value = 0) := by
  refine ⟨rfl, fun h => ?_, fun h => ?_⟩
  · show (if v = 0 then (0 : Int) else 1) = 1
    rw [if_neg h]
  · show (if v = 0 then (0 : Int) else 1) = 0
    rw [if_pos h]

/-- Witness for C8 at the nonzero input 3. -/
theorem claim_C8_witness : (rush_make_boolean 3).value = 1 :=
  (claim_C8 3).2.1 (by decide)

/-- C9: the printer renders by kind — make-integer(42) prints "42",
make-boolean(0) prints "false", make-null() prints "null", any kind
discriminant outside the five recognized ordinals prints "null", and
the println variant writes the same bytes followed by exactly one
newline. -/
theorem claim_C9 (P : PrintEnv) (v : RushObject) :
    rush_print_object P (rush_make_integer 42) = "42" ∧
    rush_print_object P (rush_make_boolean 0) = "false" ∧
    rush_print_object P rush_make_null = "null" ∧
    (v.type ≠ RUSH_NULL → v.type ≠ RUSH_INTEGER → v.type ≠ RUSH_FLOAT →
      v.type ≠ RUSH_BOOLEAN → v.type ≠ RUSH_STRING →
      rush_print_object P v = "null") ∧
    rush_println P v = rush_print_object P v ++ "\n" := by
  refine ⟨rfl, rfl, rfl, fun h1 h2 h3 h4 h5 => ?_, rfl⟩
  unfold rush_print_object
  rw [if_neg h2, if_neg h3, if_neg h4, if_neg h5]

/-- Witness for C9 at the malformed discriminant 7. -/
theorem claim_C9_witness :
    rush_print_object printEnvDefault (⟨7, 0⟩ : RushObject) = "null" :=
  (claim_C9 printEnvDefault (⟨7, 0⟩ : RushObject)).2.2.2.1
    (by decide) (by decide) (by decide) (by decide) (by decide)

/-- C10 counterexample: divide with a Float left operand and a Null
right operand returns the Null sentinel, not a Float — the Null
payload converts to the double 0.0 and the zero-divisor rule fires. -/
theorem claim_C10_counterexample :
    rush_divide floatArithFst (rush_make_float float1p5) rush_make_null
      = rush_make_null := by decide

/-- C10 amended: with exactly one Float operand and a Boolean, String
or Null other operand, add, subtract and multiply convert the
non-Float payload word numerically to double (payload 1 gives 1.0,
payload 0 gives 0.0) and return a Float Value; divide does the same
except that it returns the Null sentinel whenever the coerced right
operand compares equal to 0.0 (in particular for a Null or
false-Boolean right operand). -/
theorem claim_C10 (F : FloatArith) (l r : RushObject) :
    (l.type = RUSH_FLOAT →
      (r.type = RUSH_NULL ∨ r.type = RUSH_BOOLEAN ∨ r.type = RUSH_STRING) →
      (rush_add F l r = rush_make_float
          (F.fadd (Float64.ofBits (bits64 l.value)) (intToDouble r.value)) ∧
       rush_subtract F l r = rush_make_float
          (F.fsub (Float64.ofBits (bits64 l.value)) (intToDouble r.value)) ∧
       rush_multiply F l r = rush_make_float
          (F.fmul (Float64.ofBits (bits64 l.value)) (intToDouble r.value)) ∧
       ((intToDouble r.value).isZero = false →
         rush_divide F l r = rush_make_float
           (F.fdiv (Float64.ofBits (bits64 l.value)) (intToDouble r.value))) ∧
       ((intToDouble r.value).isZero = true →
         rush_divide F l r = rush_make_null))) ∧
    (r.type = RUSH_FLOAT →
      (l.type = RUSH_NULL ∨ l.type = RUSH_BOOLEAN ∨ l.type = RUSH_STRING) →
      (rush_add F l r = rush_make_float
          (F.fadd (intToDouble l.value) (Float64.ofBits (bits64 r.value))) ∧
       rush_subtract F l r = rush_make_float
          (F.fsub (intToDouble l.value) (Float64.ofBits (bits64 r.value))) ∧
       rush_multiply F l r = rush_make_float
          (F.fmul (intToDouble l.value) (Float64.ofBits (bits64 r.value))) ∧
       (((Float64.ofBits (bits64 r.value)).isZero = false →
         rush_divide F l r = rush_make_float
           (F.fdiv (intToDouble l.value) (Float64.ofBits (bits64 r.value)))) ∧
        ((Float64.ofBits (bits64 r.value)).isZero = true →
         rush_divide F l r = rush_make_null)))) ∧
    intToDouble 1 = float1p0 ∧
    intToDouble 0 = Float64.zero := by
  refine ⟨fun hl hro => ?_, fun hr hlo => ?_, by decide, by decide⟩
  · have hli : ¬(l.type = RUSH_INTEGER ∧ r.type = RUSH_INTEGER) := by
      rintro ⟨h, -⟩
      rw [hl] at h
      exact absurd h (by decide)
    have hrn : r.type ≠ RUSH_FLOAT := by
      rcases hro with h | h | h <;> rw [h] <;> decide
    have hrd : rushToDouble r = intToDouble r.value := by
      unfold rushToDouble; rw [if_neg hrn]
    have hld : rushToDouble l = Float64.ofBits (bits64 l.value) := by
      unfold rushToDouble; rw [if_pos hl]
    refine ⟨?_, ?_, ?_, fun hz => ?_, fun hz => ?_⟩
    · rw [rush_add_float F hli (Or.inl hl), hld, hrd]
    · rw [rush_subtract_float F hli (Or.inl hl), hld, hrd]
    · rw [rush_multiply_float F hli (Or.inl hl), hld, hrd]
    · rw [rush_divide_float_nonzero F hli (Or.inl hl) (by rw [hrd]; exact hz),
        hld, hrd]
    · exact rush_divide_float_zero F hli (Or.inl hl) (by rw [hrd]; exact hz)
  · have hli : ¬(l.type = RUSH_INTEGER ∧ r.type = RUSH_INTEGER) := by
      rintro ⟨-, h⟩
      rw [hr] at h
      exact absurd h (by decide)
    have hln : l.type ≠ RUSH_FLOAT := by
      rcases hlo with h | h | h <;> rw [h] <;> decide
    have hld : rushToDouble l = intToDouble l.value := by
      unfold rushToDouble; rw [if_neg hln]
    have hrd : rushToDouble r = Float64.ofBits (bits64 r.value) := by
      unfold rushToDouble; rw [if_pos hr]
    refine ⟨?_, ?_, ?_, fun hz => ?_, fun hz => ?_⟩
    · rw [rush_add_float F hli (Or.inr hr), hld, hrd]
    · rw [rush_subtract_float F hli (Or.inr hr), hld, hrd]
    · rw [rush_multiply_float F hli (Or.inr hr), hld, hrd]
    · rw [rush_divide_float_nonzero F hli (Or.inr hr) (by rw [hrd]; exact hz),
        hld, hrd]
    · exact rush_divide_float_zero F hli (Or.inr hr) (by rw [hrd]; exact hz)

/-- Witness for C10 at a Float left operand and a Boolean-true right
operand. -/
theorem claim_C10_witness :
    rush_add floatArithFst (rush_make_float float1p5) (rush_make_boolean 1)
      = rush_make_float (floatArithFst.fadd
          (Float64.ofBits (bits64 (rush_make_float float1p5).value))
          (intToDouble (rush_make_boolean 1).value)) :=
  ((claim_C10 floatArithFst (rush_make_float float1p5) (rush_make_boolean 1)).1
    rfl (Or.inr (Or.inl rfl))).1
